import Mathlib

/-!
Verification of the VoiceLog audio capture/playback pipeline and its WAV
container codec.  The Go source (`main.go`) is shallowly embedded: files are
lists of bytes (`List ℕ`, each entry < 256 where relevant), 16-bit samples are
integers, `float64` volume factors are rationals, and the parts of the
application model touched by the audio pipeline (`Model`, `AudioDevice`,
recording files, memo records) are explicit records.  External effects
(PortAudio initialisation, device lookup, file creation, stream open/start)
are represented by boolean outcome flags, since only success/failure of each
step is observable in the control flow.
-/

namespace VoiceLog

/-! ## Little-endian byte helpers (binary.LittleEndian.PutUint16/32, Uint16/32) -/

/-- Two little-endian bytes of a 16-bit value (`binary.LittleEndian.PutUint16`);
values ≥ 2^16 wrap, as the Go `uint16` conversion does. -/
def le16 (n : ℕ) : List ℕ := [n % 256, n / 256 % 256]

/-- Four little-endian bytes of a 32-bit value (`binary.LittleEndian.PutUint32`);
values ≥ 2^32 wrap, as the Go `uint32` conversion does. -/
def le32 (n : ℕ) : List ℕ :=
  [n % 256, n / 256 % 256, n / 65536 % 256, n / 16777216 % 256]

/-- `binary.LittleEndian.Uint16(bs[off:off+2])`; out-of-range reads give 0,
matching the zero-initialised Go buffers the source reads from. -/
def readLE16 (bs : List ℕ) (off : ℕ) : ℕ :=
  bs.getD off 0 + 256 * bs.getD (off + 1) 0

/-- `binary.LittleEndian.Uint32(bs[off:off+4])`. -/
def readLE32 (bs : List ℕ) (off : ℕ) : ℕ :=
  bs.getD off 0 + 256 * bs.getD (off + 1) 0 + 65536 * bs.getD (off + 2) 0
    + 16777216 * bs.getD (off + 3) 0

/-! ## WAV codec (`writeWAVHeader`, `readWAVData` in main.go) -/

/-- The 44 ASCII/byte values of the header built by `writeWAVHeader`
(main.go lines 733–758): RIFF tag, riff chunk size `36+dataSize`, WAVE tag,
fmt chunk (size 16, PCM tag 1, channels, sample rate, byte rate, block align,
bits per sample), data tag, data chunk size. -/
def writeWAVHeader (sampleRate channels bitsPerSample dataSize : ℕ) : List ℕ :=
  [82, 73, 70, 70] ++ le32 (36 + dataSize)
    ++ [87, 65, 86, 69]
    ++ [102, 109, 116, 32] ++ le32 16 ++ le16 1
    ++ le16 channels ++ le32 sampleRate
    ++ le32 (sampleRate * channels * bitsPerSample / 8)
    ++ le16 (channels * bitsPerSample / 8)
    ++ le16 bitsPerSample
    ++ [100, 97, 116, 97] ++ le32 dataSize

/-- The magic-tag validation of `readWAVData` (main.go line 706):
`string(header[0:4]) == "RIFF" && string(header[8:12]) == "WAVE"`,
as byte values. -/
def magicOk (h : List ℕ) : Prop :=
  h.take 4 = [82, 73, 70, 70] ∧ (h.drop 8).take 4 = [87, 65, 86, 69]

instance (h : List ℕ) : Decidable (magicOk h) := by
  unfold magicOk; infer_instance

/-- Header parsing as done by `readWAVData` on its 44-byte header buffer:
reject unless the RIFF/WAVE magic tags match, then read channel count,
sample rate and data-chunk size from fixed offsets 22, 24 and 40.  No other
field (byteRate, blockAlign, bitsPerSample) is validated or used. -/
def decodeHeader (h : List ℕ) : Option (ℕ × ℕ × ℕ) :=
  if magicOk h then some (readLE16 h 22, readLE32 h 24, readLE32 h 40)
  else none

/-- Conversion of one 16-bit sample to its two little-endian bytes, as
`binary.Write(file, binary.LittleEndian, in)` lays out an `int16`. -/
def int16ToBytes (s : ℤ) : List ℕ := le16 ((s % 65536).toNat)

/-- Byte serialisation of a sample buffer: two little-endian bytes per
sample, in order (`binary.Write` of an `[]int16`). -/
def samplesToBytes (ss : List ℤ) : List ℕ := ss.flatMap int16ToBytes

/-- Reinterpret an unsigned 16-bit value as a signed `int16`
(`int16(binary.LittleEndian.Uint16(...))`). -/
def u16ToInt16 (u : ℕ) : ℤ := if u < 32768 then (u : ℤ) else (u : ℤ) - 65536

/-- The sample-decoding loop of `readWAVData` (main.go lines 723–727):
`len(audioData)/2` samples, each from two little-endian bytes; a trailing
odd byte is dropped. -/
def bytesToSamples : List ℕ → List ℤ
  | b0 :: b1 :: rest => u16ToInt16 (b0 + 256 * b1) :: bytesToSamples rest
  | _ => []

/-- A single Go `file.Read` into a fresh zero-filled buffer of length `n`,
with the file cursor at `off`: the available bytes fill the front of the
buffer and the rest stays zero. -/
def readBuf (f : List ℕ) (off n : ℕ) : List ℕ :=
  (f.drop off).take n ++ List.replicate (n - (f.drop off).length) 0

/-- The distinct failure exits of `readWAVData`: the header `Read` failing
(empty file, immediate EOF), the magic-tag check failing
(`"not a valid WAV file"`, the spec's `InvalidFormat`), and the payload
`Read` failing (EOF with no payload byte available). -/
inductive ReadErr
  | headerRead
  | invalidFormat
  | dataRead
  deriving DecidableEq

/-- `readWAVData` (main.go lines 693–730) on a file given as its byte list:
read a 44-byte header buffer (a `Read` on an empty file errors; a short file
leaves the buffer zero-padded), check the RIFF/WAVE magic, take channels,
sample rate and declared data size from offsets 22/24/40, then `Read` into a
zero-filled buffer of the declared size — this second `Read` errors only when
no payload byte at all is available while the declared size is positive; a
partial payload is accepted and the buffer stays zero-padded.  Returns
`(samples, sampleRate, channels)` like the Go function. -/
def readWAVData (f : List ℕ) : Except ReadErr (List ℤ × ℕ × ℕ) :=
  if f.length = 0 then .error .headerRead
  else
    let header := readBuf f 0 44
    if magicOk header then
      let channels := readLE16 header 22
      let sampleRate := readLE32 header 24
      let dataSize := readLE32 header 40
      if 0 < dataSize ∧ f.length ≤ 44 then .error .dataRead
      else .ok (bytesToSamples (readBuf f 44 dataSize), sampleRate, channels)
    else .error .invalidFormat

/-- The finalisation write of `stopRecording` (main.go lines 1561–1570):
seek to offset 40 and overwrite 4 bytes with the little-endian value of
`fileSize − 44`. -/
def patchDataSize (f : List ℕ) : List ℕ :=
  f.take 40 ++ le32 (f.length - 44) ++ f.drop 44

/-- The duration derivation of `stopRecording` (main.go lines 1549–1559):
`bytesPerSample := ChannelCount * BitDepth` (the config `BitDepth` is in
bytes); if `bytesPerSample > 0 && SampleRate > 0` the duration is the
(toward-zero) integer quotient `dataSize / bytesPerSample` divided by the
sample rate, otherwise the elapsed wall-clock recording time. -/
def durationCalc (dataSize channelCount bitDepth sampleRate : ℤ)
    (elapsed : ℚ) : ℚ :=
  let bytesPerSample := channelCount * bitDepth
  if 0 < bytesPerSample ∧ 0 < sampleRate then
    ((dataSize.tdiv bytesPerSample : ℤ) : ℚ) / (sampleRate : ℚ)
  else elapsed

/-! ## Playback fill (`processAudioOutput` in main.go) -/

/-- Truncation of a rational toward zero, the effect of Go's
`int16(sample)` conversion on an in-range `float64`. -/
def ratTrunc (q : ℚ) : ℤ := q.num.tdiv (q.den : ℤ)

/-- One output slot of `processAudioOutput` (main.go lines 1500–1509):
scale the sample by the volume, clamp the scaled value into
[−32768, 32767], convert back to `int16`. -/
def clampScale (s : ℤ) (v : ℚ) : ℤ :=
  let x : ℚ := (s : ℤ) * v
  ratTrunc (if x > 32767 then 32767 else if x < -32768 then -32768 else x)

/-- The fill loop of `processAudioOutput`: for each of `n` output slots, if
the cursor is still inside the data, emit the clamped scaled sample and
advance the cursor; otherwise emit silence.  Returns the output block and
the final cursor. -/
def fillOutput (data : List ℤ) (v : ℚ) : ℕ → ℕ → List ℤ × ℕ
  | pos, 0 => ([], pos)
  | pos, n + 1 =>
    if pos < data.length then
      let o := clampScale (data.getD pos 0) v
      let r := fillOutput data v (pos + 1) n
      (o :: r.1, r.2)
    else
      let r := fillOutput data v pos n
      (0 :: r.1, r.2)

/-! ## Application model (the audio-relevant slice of `Model` in main.go) -/

/-- The application states the audio pipeline uses
(`StateViewing`/`StateRecording`/`StatePlaying`); `viewing` is the idle
state the spec calls `Idle`. -/
inductive AppState
  | viewing
  | recording
  | playing
  deriving DecidableEq

/-- `AudioDevice` (main.go lines 359–364): the open recording file is an
index into the model's file table, playback data is the decoded sample
buffer, `playbackPos` the cursor.  The PortAudio stream handle carries no
observable state and is omitted. -/
structure AudioDev where
  recordingFile : Option ℕ
  playbackData : Option (List ℤ)
  playbackPos : ℕ
  deriving DecidableEq

/-- A file created by the recorder: its bytes and whether the handle is
still open. -/
structure FileSt where
  bytes : List ℕ
  isOpen : Bool
  deriving DecidableEq

/-- The observable content of a finalized `Memo` record. -/
structure Memo where
  duration : ℚ
  size : ℕ
  deriving DecidableEq

/-- The audio-relevant slice of the Bubble Tea `Model`: session flags and
state, the audio device, the displayed playback position (seconds), the
files created by recording, the memo list, the elapsed recording time, the
sanitized configuration fields and the volume. -/
structure Model where
  recording : Bool
  playing : Bool
  state : AppState
  audioDevice : Option AudioDev
  playbackPosDisplay : ℚ
  files : List FileSt
  memos : List Memo
  recordingTime : ℚ
  cfgSampleRate : ℕ
  cfgChannelCount : ℕ
  cfgBitDepth : ℕ
  volume : ℚ
  deriving DecidableEq

/-- A fresh model with the default sanitized configuration
(SampleRate 44100, ChannelCount 2, BitDepth 2 bytes, Volume 1). -/
def initModel : Model where
  recording := false
  playing := false
  state := .viewing
  audioDevice := none
  playbackPosDisplay := 0
  files := []
  memos := []
  recordingTime := 0
  cfgSampleRate := 44100
  cfgChannelCount := 2
  cfgBitDepth := 2
  volume := 1

/-- Success/failure of each external step of a session start: PortAudio
initialisation, device availability, file creation, header write, stream
open, stream start. -/
structure Env where
  initOk : Bool
  devOk : Bool
  createOk : Bool
  headerOk : Bool
  openOk : Bool
  startOk : Bool
  deriving DecidableEq

/-- The all-successful environment. -/
def envAllOk : Env where
  initOk := true
  devOk := true
  createOk := true
  headerOk := true
  openOk := true
  startOk := true

/-! ## Playback session control (`startPlayback`, `stopPlayback`, tick) -/

/-- `stopPlayback` (main.go lines 1707–1731): close stream and device,
clear the playing flag, return to the viewing state, reset the displayed
position. -/
def stopPlayback (m : Model) : Model :=
  { m with audioDevice := none, playing := false, state := .viewing,
           playbackPosDisplay := 0 }

/-- `pausePlayback` (main.go lines 1694–1703): stop the stream but keep the
device (decoded buffer and cursor), clear the playing flag. -/
def pausePlayback (m : Model) : Model :=
  { m with playing := false, state := .viewing }

/-- `startPlayback` (main.go lines 1610–1691): decode the file with
`readWAVData` (returning unchanged on error), then initialise PortAudio,
find an output device, install the `AudioDevice` with the decoded buffer at
cursor 0, open and start the stream; only when every step succeeds does the
model enter the playing state.  The stream is opened at the file's own
sample rate and channel count, which are otherwise not retained. -/
def startPlayback (env : Env) (f : List ℕ) (m : Model) : Model :=
  match readWAVData f with
  | .error _ => m
  | .ok (samples, _sampleRate, _channels) =>
    if ¬env.initOk then m
    else if ¬env.devOk then m
    else
      let dev : AudioDev :=
        { recordingFile := none, playbackData := some samples,
          playbackPos := 0 }
      let m1 := { m with audioDevice := some dev }
      if ¬env.openOk then m1
      else if ¬env.startOk then m1
      else { m1 with playing := true, state := .playing,
                     playbackPosDisplay := 0, recordingTime := 0 }

/-- The playback callback `processAudioOutput` as a model step for an
`n`-slot request: with no device or no playback data the output is all
silence; otherwise run the fill loop and store the advanced cursor. -/
def processAudioOutputStep (n : ℕ) (m : Model) : List ℤ × Model :=
  match m.audioDevice with
  | none => (List.replicate n 0, m)
  | some d =>
    match d.playbackData with
    | none => (List.replicate n 0, m)
    | some data =>
      let r := fillOutput data m.volume d.playbackPos n
      (r.1, { m with audioDevice := some { d with playbackPos := r.2 } })

/-- The `tickMsg` handler (main.go lines 896–916), restricted to its
session-progress effects: while recording, advance the elapsed time by the
tick interval; while playing with a loaded buffer, recompute the displayed
position as `cursor / 44100` seconds (the hardcoded default rate) and, when
the cursor has reached the end of the data, invoke `stopPlayback`.  The
second component reports whether `stopPlayback` was invoked on this tick. -/
def updateTick (dt : ℚ) (m : Model) : Model × Bool :=
  let m1 := if m.recording
    then { m with recordingTime := m.recordingTime + dt }
    else m
  if m1.playing then
    match m1.audioDevice with
    | some d =>
      match d.playbackData with
      | some data =>
        let m2 := { m1 with playbackPosDisplay := (d.playbackPos : ℚ) / 44100 }
        if data.length ≤ d.playbackPos then (stopPlayback m2, true)
        else (m2, false)
      | none => (m1, false)
    | none => (m1, false)
  else (m1, false)

/-! ## Capture session control (`startRecording`, `stopRecording`, input) -/

/-- `stopRecording` (main.go lines 1522–1607): clear the recording flag and
return to the viewing state; if an audio device with an open recording file
exists, compute the duration from `fileSize − 44` and the configuration,
patch the data-chunk size at offset 40, close the file, and prepend a new
memo record; finally reset the elapsed recording time.  With no device or
no open file the filename stays empty and no memo is created. -/
def stopRecording (m : Model) : Model :=
  let m1 := { m with recording := false, state := .viewing }
  match m1.audioDevice with
  | none => { m1 with recordingTime := 0 }
  | some d =>
    match d.recordingFile with
    | none => { m1 with audioDevice := none, recordingTime := 0 }
    | some k =>
      match m1.files.get? k with
      | none => { m1 with audioDevice := none, recordingTime := 0 }
      | some fs =>
        let fileSize := fs.bytes.length
        let dataSize : ℤ := (fileSize : ℤ) - 44
        let duration := durationCalc dataSize (m1.cfgChannelCount : ℤ)
          (m1.cfgBitDepth : ℤ) (m1.cfgSampleRate : ℤ) m1.recordingTime
        let files' := m1.files.set k { bytes := patchDataSize fs.bytes,
                                       isOpen := false }
        let memo : Memo := { duration := duration, size := fileSize }
        { m1 with audioDevice := none, files := files',
                  memos := memo :: m1.memos, recordingTime := 0 }

/-- `startRecording` (main.go lines 1311–1422): set the recording flag and
state, then run the start sequence, calling `stopRecording` on the first
failing step exactly as the source does.  The file is created (open, empty)
before the header write; the header (with placeholder data size 0) is
written next; the `AudioDevice` holding the file is installed only after
that, before the stream is opened. -/
def startRecording (env : Env) (m : Model) : Model :=
  let m1 := { m with recording := true, state := .recording,
                     recordingTime := 0 }
  if ¬env.initOk then stopRecording m1
  else if ¬env.devOk then stopRecording m1
  else if ¬env.createOk then stopRecording m1
  else
    let k := m1.files.length
    let m2 := { m1 with files := m1.files ++ [{ bytes := [], isOpen := true }] }
    if ¬env.headerOk then stopRecording m2
    else
      let header := writeWAVHeader m2.cfgSampleRate m2.cfgChannelCount
        (m2.cfgBitDepth * 8) 0
      let hdrFile : FileSt := { bytes := header, isOpen := true }
      let m3 := { m2 with files := m2.files.set k hdrFile }
      let dev : AudioDev :=
        { recordingFile := some k, playbackData := none, playbackPos := 0 }
      let m4 := { m3 with audioDevice := some dev }
      if ¬env.openOk then stopRecording m4
      else if ¬env.startOk then stopRecording m4
      else m4

/-- The capture callback `processAudioInput` (main.go lines 1425–1484),
restricted to its file effect: append the little-endian bytes of the
delivered block to the open recording file, if any. -/
def processAudioInput (block : List ℤ) (m : Model) : Model :=
  match m.audioDevice with
  | none => m
  | some d =>
    match d.recordingFile with
    | none => m
    | some k =>
      match m.files.get? k with
      | none => m
      | some fs =>
        let fs' : FileSt := { fs with bytes := fs.bytes ++ samplesToBytes block }
        { m with files := m.files.set k fs' }

/-- A complete successful recording session: start, deliver the given
blocks through the capture callback, stop. -/
def recordSession (blocks : List (List ℤ)) (m : Model) : Model :=
  stopRecording (blocks.foldl (fun acc b => processAudioInput b acc)
    (startRecording envAllOk m))

/-- A fresh model whose sanitized configuration carries the given sample
rate, channel count and byte depth. -/
def initModelCfg (sr ch bd : ℕ) : Model :=
  { initModel with cfgSampleRate := sr, cfgChannelCount := ch, cfgBitDepth := bd }

/-! ## Helper lemmas -/

theorem getD_take' (l : List ℕ) (n i : ℕ) (h : i < n) :
    (l.take n).getD i 0 = l.getD i 0 := by
  simp [List.getD_eq_getElem?_getD, List.getElem?_take_of_lt h]

theorem getD_drop' (l : List ℕ) (n i : ℕ) :
    (l.drop n).getD i 0 = l.getD (n + i) 0 := by
  simp [List.getD_eq_getElem?_getD, List.getElem?_drop]

theorem readLE32_append (pre t : List ℕ) :
    readLE32 (pre ++ t) pre.length = readLE32 t 0 := by
  unfold readLE32
  rw [List.getD_append_right _ _ _ _ (by omega),
      List.getD_append_right _ _ _ _ (by omega),
      List.getD_append_right _ _ _ _ (by omega),
      List.getD_append_right _ _ _ _ (by omega)]
  simp

theorem readLE32_le32_append (D : ℕ) (rest : List ℕ) (hD : D < 4294967296) :
    readLE32 (le32 D ++ rest) 0 = D := by
  simp [readLE32, le32]
  omega

theorem length_writeWAVHeader (sr ch bps d : ℕ) :
    (writeWAVHeader sr ch bps d).length = 44 := by
  simp [writeWAVHeader, le16, le32]

theorem length_patchDataSize (f : List ℕ) (h : 44 ≤ f.length) :
    (patchDataSize f).length = f.length := by
  simp [patchDataSize, le32]
  omega

theorem readLE32_patchDataSize (f : List ℕ) (h : 44 ≤ f.length)
    (h2 : f.length - 44 < 4294967296) :
    readLE32 (patchDataSize f) 40 = f.length - 44 := by
  have hlt : (f.take 40).length = 40 := by simp; omega
  unfold patchDataSize
  rw [List.append_assoc]
  calc readLE32 (f.take 40 ++ (le32 (f.length - 44) ++ f.drop 44)) 40
      = readLE32 (f.take 40 ++ (le32 (f.length - 44) ++ f.drop 44))
          (f.take 40).length := by rw [hlt]
    _ = readLE32 (le32 (f.length - 44) ++ f.drop 44) 0 := readLE32_append _ _
    _ = f.length - 44 := readLE32_le32_append _ _ h2

theorem getD_patchDataSize_lt (f : List ℕ) (h : 44 ≤ f.length) (i : ℕ)
    (hi : i < 40) : (patchDataSize f).getD i 0 = f.getD i 0 := by
  unfold patchDataSize
  rw [List.append_assoc]
  rw [List.getD_append _ _ _ _ (by simp; omega)]
  exact getD_take' f 40 i hi

theorem getD_patchDataSize_ge (f : List ℕ) (h : 44 ≤ f.length) (i : ℕ)
    (hi : 44 ≤ i) : (patchDataSize f).getD i 0 = f.getD i 0 := by
  have hlt : (f.take 40).length = 40 := by simp; omega
  unfold patchDataSize
  rw [List.append_assoc]
  rw [List.getD_append_right _ _ _ _ (by rw [hlt]; omega), hlt]
  have hle : (le32 (f.length - 44)).length = 4 := by simp [le32]
  rw [List.getD_append_right _ _ _ _ (by rw [hle]; omega), hle, getD_drop']
  congr 1
  omega

theorem sample_roundtrip (s : ℤ) (h1 : -32768 ≤ s) (h2 : s ≤ 32767) :
    u16ToInt16 ((s % 65536).toNat % 256 + 256 * ((s % 65536).toNat / 256 % 256))
      = s := by
  unfold u16ToInt16
  split <;> omega

theorem bytes_samples_roundtrip (S : List ℤ)
    (h : ∀ s ∈ S, -32768 ≤ s ∧ s ≤ 32767) :
    bytesToSamples (samplesToBytes S) = S := by
  induction S with
  | nil => rfl
  | cons s rest ih =>
    have hs := h s (List.mem_cons_self s rest)
    have hrest : ∀ x ∈ rest, -32768 ≤ x ∧ x ≤ 32767 :=
      fun x hx => h x (List.mem_cons_of_mem s hx)
    calc bytesToSamples (samplesToBytes (s :: rest))
        = u16ToInt16 ((s % 65536).toNat % 256
            + 256 * ((s % 65536).toNat / 256 % 256))
            :: bytesToSamples (samplesToBytes rest) := rfl
      _ = s :: rest := by rw [sample_roundtrip s hs.1 hs.2, ih hrest]

theorem length_samplesToBytes (S : List ℤ) :
    (samplesToBytes S).length = 2 * S.length := by
  induction S with
  | nil => rfl
  | cons s rest ih =>
    simp [samplesToBytes, int16ToBytes, le16] at ih ⊢
    omega

/-! ## Claims -/

/-- Claim C2: for every format descriptor with positive sample rate
(bounded by the 32-bit header field), channel count 1 or 2 and 16 bits per
sample, and every in-range sample buffer `S`, decoding the header encoded
for data size `len(samplesToBytes S)` yields back the channel count, the
sample rate and that data size; and `bytesToSamples (samplesToBytes S) = S`. -/
theorem claim_C2 (sr ch : ℕ) (S : List ℤ)
    (hch : ch = 1 ∨ ch = 2) (hsr0 : 0 < sr) (hsr : sr < 4294967296)
    (hS : ∀ s ∈ S, -32768 ≤ s ∧ s ≤ 32767)
    (hlen : (samplesToBytes S).length < 4294967296) :
    decodeHeader (writeWAVHeader sr ch 16 (samplesToBytes S).length)
      = some (ch, sr, (samplesToBytes S).length)
    ∧ bytesToSamples (samplesToBytes S) = S := by
  have hch' : ch < 65536 := by rcases hch with h | h <;> omega
  refine ⟨?_, bytes_samples_roundtrip S hS⟩
  simp [decodeHeader, magicOk, writeWAVHeader, le16, le32, readLE16, readLE32]
  omega

/-- Witness for C2 at sample rate 44100, one channel, samples [513, −1]. -/
theorem claim_C2_witness :
    decodeHeader (writeWAVHeader 44100 1 16
        (samplesToBytes [(513 : ℤ), -1]).length)
      = some (1, 44100, (samplesToBytes [(513 : ℤ), -1]).length)
    ∧ bytesToSamples (samplesToBytes [(513 : ℤ), -1]) = [513, -1] :=
  claim_C2 44100 1 [513, -1] (Or.inl rfl) (by decide) (by decide)
    (by decide) (by decide)

/-- Claim C3: header decoding fails with `InvalidFormat` exactly when the
RIFF/WAVE magic tags mismatch; bytes passing the magic check are decoded by
reading channel count, sample rate and data-chunk size from offsets 22, 24
and 40, with no other validation.  At the `readWAVData` level the
`InvalidFormat` error occurs exactly on a non-empty file whose (zero-padded)
44-byte header buffer fails the magic check. -/
theorem claim_C3 (f h : List ℕ) :
    (decodeHeader h = none ↔ ¬ magicOk h)
    ∧ (magicOk h →
        decodeHeader h = some (readLE16 h 22, readLE32 h 24, readLE32 h 40))
    ∧ (readWAVData f = .error .invalidFormat
        ↔ 0 < f.length ∧ ¬ magicOk (readBuf f 0 44)) := by
  refine ⟨?_, ?_, ?_⟩
  · by_cases hm : magicOk h <;> simp [decodeHeader, hm]
  · intro hm
    simp [decodeHeader, hm]
  · by_cases h0 : f.length = 0
    · simp [readWAVData, h0]
    · by_cases hm : magicOk (readBuf f 0 44)
      · by_cases hd : 0 < readLE32 (readBuf f 0 44) 40 ∧ f.length ≤ 44
        · simp [readWAVData, h0, hm, hd]
        · simp [readWAVData, h0, hm, hd]
      · simp [readWAVData, h0, hm]
        omega

/-- Witness for C3: a header passing the magic check decodes to its field
values, and the one-byte file [0] fails with `InvalidFormat`. -/
theorem claim_C3_witness :
    decodeHeader (writeWAVHeader 44100 2 16 0)
      = some (readLE16 (writeWAVHeader 44100 2 16 0) 22,
              readLE32 (writeWAVHeader 44100 2 16 0) 24,
              readLE32 (writeWAVHeader 44100 2 16 0) 40)
    ∧ readWAVData [0] = .error .invalidFormat :=
  ⟨(claim_C3 [0] (writeWAVHeader 44100 2 16 0)).2.1 (by decide),
   ((claim_C3 [0] (writeWAVHeader 44100 2 16 0)).2.2).2 (by decide)⟩

theorem fillOutput_spec (data : List ℤ) (v : ℚ) (pos n : ℕ) :
    (∀ i, i < n → (fillOutput data v pos n).1.getD i 0 =
      if pos + i < data.length then clampScale (data.getD (pos + i) 0) v else 0)
    ∧ (fillOutput data v pos n).2 = min (pos + n) (max pos data.length)
    ∧ (fillOutput data v pos n).1.length = n := by
  induction n generalizing pos with
  | zero =>
    refine ⟨fun i hi => absurd hi (by omega), ?_, rfl⟩
    simp only [fillOutput]
    omega
  | succ n ih =>
    by_cases hlt : pos < data.length
    · have h1 : fillOutput data v pos (n + 1)
          = (clampScale (data.getD pos 0) v :: (fillOutput data v (pos + 1) n).1,
             (fillOutput data v (pos + 1) n).2) := by
        rw [fillOutput]
        simp [hlt]
      obtain ⟨ihs, ihc, ihl⟩ := ih (pos + 1)
      refine ⟨fun i hi => ?_, ?_, ?_⟩
      · rcases i with _ | j
        · simp [h1, hlt]
        · rw [h1]
          simp only [List.getD_cons_succ]
          rw [ihs j (by omega)]
          have heq : pos + 1 + j = pos + (j + 1) := by omega
          rw [heq]
      · rw [h1]
        rw [ihc]
        omega
      · rw [h1]
        simp [ihl]
    · have h1 : fillOutput data v pos (n + 1)
          = (0 :: (fillOutput data v pos n).1, (fillOutput data v pos n).2) := by
        rw [fillOutput]
        simp [hlt]
      obtain ⟨ihs, ihc, ihl⟩ := ih pos
      refine ⟨fun i hi => ?_, ?_, ?_⟩
      · rcases i with _ | j
        · simp [h1, hlt]
        · rw [h1]
          simp only [List.getD_cons_succ]
          rw [ihs j (by omega)]
          have hge : ¬ pos + j < data.length := by omega
          have hge2 : ¬ pos + (j + 1) < data.length := by omega
          simp [hge, hge2]
      · rw [h1]
        rw [ihc]
        omega
      · rw [h1]
        simp [ihl]

/-- Claim C4: in each playback fill request, every output slot whose cursor
is still inside the decoded data receives the clamped volume-scaled sample
and advances the cursor by one, and every slot past end-of-data receives
silence; concretely, samples [100, −200, 300] at volume 1/2 with 5 slots
yield [50, −100, 150, 0, 0] with final cursor 3, and a sample of 32000
scaled by 3/2 clamps to 32767 rather than wrapping. -/
theorem claim_C4 (data : List ℤ) (v : ℚ) (pos n : ℕ) :
    (∀ i, i < n → (fillOutput data v pos n).1.getD i 0 =
      if pos + i < data.length then clampScale (data.getD (pos + i) 0) v else 0)
    ∧ (fillOutput data v pos n).2 = min (pos + n) (max pos data.length)
    ∧ (fillOutput data v pos n).1.length = n
    ∧ fillOutput [100, -200, 300] (1/2) 0 5 = ([50, -100, 150, 0, 0], 3)
    ∧ clampScale 32000 (3/2) = 32767 := by
  obtain ⟨h1, h2, h3⟩ := fillOutput_spec data v pos n
  refine ⟨h1, h2, h3, ?_, ?_⟩
  · norm_num [fillOutput, clampScale, ratTrunc]
  · norm_num [clampScale, ratTrunc]

/-- Witness for C4: slot 1 of the concrete 5-slot request carries the
scaled sample at cursor 1, and the final cursor is 3. -/
theorem claim_C4_witness :
    (fillOutput [100, -200, 300] (1/2) 0 5).1.getD 1 0
      = clampScale ([(100 : ℤ), -200, 300].getD 1 0) (1/2)
    ∧ (fillOutput [100, -200, 300] (1/2) 0 5).2 = 3 := by
  have h := claim_C4 [100, -200, 300] (1/2) 0 5
  constructor
  · have h1 := h.1 1 (by omega)
    simpa using h1
  · have h2 := h.2.1
    simpa using h2

instance {ε α : Type} [DecidableEq ε] [DecidableEq α] :
    DecidableEq (Except ε α)
  | .error e, .error e' => decidable_of_iff (e = e') (by simp)
  | .error _, .ok _ => isFalse (by simp)
  | .ok _, .error _ => isFalse (by simp)
  | .ok a, .ok b => decidable_of_iff (a = b) (by simp)

theorem updateTick_not_playing (dt : ℚ) (m : Model) (h : m.playing = false) :
    (updateTick dt m).2 = false := by
  unfold updateTick
  split <;> simp_all

theorem updateTick_stop (dt : ℚ) (m : Model)
    (h : (updateTick dt m).2 = true) : (updateTick dt m).1.playing = false := by
  obtain ⟨rec, play, st, ad, disp, fls, ms, rt, c1, c2, c3, vol⟩ := m
  rcases ad with _ | ⟨rf, pd, pp⟩
  · cases rec <;> cases play <;> simp_all [updateTick]
  · rcases pd with _ | data
    · cases rec <;> cases play <;> simp_all [updateTick]
    · cases rec <;> cases play <;> by_cases hend : data.length ≤ pp <;>
        simp_all [updateTick, stopPlayback]

/-- Claim C9: a coordinator tick that observes the cursor at or past the
end of the playback data invokes `stopPlayback` exactly once: the resulting
model has the playing flag cleared, so the next tick does not issue another
stop call. -/
theorem claim_C9 (dt dt' : ℚ) (m : Model)
    (h : (updateTick dt m).2 = true) :
    (updateTick dt m).1.playing = false
    ∧ (updateTick dt' ((updateTick dt m).1)).2 = false := by
  have h1 := updateTick_stop dt m h
  exact ⟨h1, updateTick_not_playing dt' _ h1⟩

/-- A playback device whose buffer is exhausted (empty data, cursor 0). -/
def devEnded : AudioDev :=
  { recordingFile := none, playbackData := some [], playbackPos := 0 }

/-- A playing model whose playback buffer is exhausted. -/
def mPlayEnded : Model :=
  { initModel with playing := true, audioDevice := some devEnded }

/-- Witness for C9 on a playing model with an exhausted buffer. -/
theorem claim_C9_witness :
    (updateTick 0 mPlayEnded).1.playing = false
    ∧ (updateTick 0 ((updateTick 0 mPlayEnded).1)).2 = false :=
  claim_C9 0 0 mPlayEnded (by decide)

/-- A playback device mid-file: two samples, cursor 1. -/
def devMid : AudioDev :=
  { recordingFile := none, playbackData := some [9, 9], playbackPos := 1 }

/-- A playing model mid-file. -/
def mPlayMid : Model :=
  { initModel with playing := true, audioDevice := some devMid }

/-- A WAV file declaring sample rate 22050 with four payload samples. -/
def fileR22050 : List ℕ :=
  writeWAVHeader 22050 1 16 8 ++ samplesToBytes [5, 6, 7, 8]

/-- Counterexample to C5 as stated: play a file whose sample rate is 22050
and advance the cursor to 3 through the output callback; the tick then
displays `3 / 44100` seconds, not `cursor / sampleRateHz = 3 / 22050`. -/
theorem claim_C5_counterexample :
    readWAVData fileR22050 = .ok ([5, 6, 7, 8], 22050, 1)
    ∧ (updateTick (1/10) ((processAudioOutputStep 3
          (startPlayback envAllOk fileR22050 initModel)).2)).1.playbackPosDisplay
        ≠ (3 : ℚ) / 22050 := by
  refine ⟨by decide, ?_⟩
  have hdisp : (updateTick (1/10) ((processAudioOutputStep 3
      (startPlayback envAllOk fileR22050 initModel)).2)).1.playbackPosDisplay
      = (3 : ℚ) / 44100 := by
    norm_num [updateTick, processAudioOutputStep, startPlayback, envAllOk,
      initModel, readWAVData, fileR22050, writeWAVHeader, samplesToBytes,
      int16ToBytes, le16, le32, readBuf, magicOk, readLE16, readLE32,
      bytesToSamples, u16ToInt16, fillOutput, clampScale, ratTrunc,
      stopPlayback]
  rw [hdisp]
  norm_num

/-- Claim C5 (amended): on every tick during playback the displayed
position is `cursor / 44100` seconds — the hardcoded default sample rate —
regardless of the sample rate of the file being played (on the tick that
reaches end-of-data, `stopPlayback` resets the display to 0). -/
theorem claim_C5 (dt : ℚ) (m : Model) (d : AudioDev) (data : List ℤ)
    (hp : m.playing = true) (hd : m.audioDevice = some d)
    (hdata : d.playbackData = some data) :
    (updateTick dt m).1.playbackPosDisplay =
      if d.playbackPos < data.length then (d.playbackPos : ℚ) / 44100
      else 0 := by
  obtain ⟨rec, play, st, ad, disp, fls, ms, rt, c1, c2, c3, vol⟩ := m
  subst hd
  obtain ⟨rf, pd, pp⟩ := d
  subst hdata
  subst hp
  cases rec <;> by_cases hend : data.length ≤ pp
  · simp [updateTick, stopPlayback, hend, Nat.not_lt.mpr hend]
  · simp [updateTick, hend, Nat.not_le.mp hend]
  · simp [updateTick, stopPlayback, hend, Nat.not_lt.mpr hend]
  · simp [updateTick, hend, Nat.not_le.mp hend]

/-- Witness for C5 (amended) on a playing model mid-file at cursor 1. -/
theorem claim_C5_witness :
    (updateTick 0 mPlayMid).1.playbackPosDisplay = (1 : ℚ) / 44100 := by
  have h := claim_C5 0 mPlayMid devMid [9, 9] rfl rfl rfl
  simpa [devMid] using h

/-- A WAV file declaring a 4-byte data chunk but carrying only 2 payload
bytes: a truncated file. -/
def fileTrunc : List ℕ := writeWAVHeader 44100 1 16 4 ++ [1, 2]

/-- Counterexample to C6 as stated: `fileTrunc` declares dataChunkSize 4
but carries only 2 payload bytes, yet decoding succeeds (the missing bytes
read as zero) and playback start creates a session. -/
theorem claim_C6_counterexample :
    readLE32 (readBuf fileTrunc 0 44) 40 = 4
    ∧ (fileTrunc.drop 44).length = 2
    ∧ readWAVData fileTrunc = .ok ([513, 0], 44100, 1)
    ∧ (startPlayback envAllOk fileTrunc initModel).playing = true := by
  decide

/-- Claim C6 (amended): decoding the target file fails exactly when the
file is empty, its header fails the magic validation, or its declared
dataChunkSize is positive while no payload byte at all follows the header;
a partially truncated payload is accepted zero-padded.  Whenever decoding
fails, playback start leaves the model unchanged: no session is created. -/
theorem claim_C6 (env : Env) (f : List ℕ) (m : Model) :
    ((∃ e, readWAVData f = .error e)
      ↔ f.length = 0 ∨ ¬ magicOk (readBuf f 0 44)
          ∨ (0 < readLE32 (readBuf f 0 44) 40 ∧ f.length ≤ 44))
    ∧ (∀ e, readWAVData f = .error e → startPlayback env f m = m) := by
  refine ⟨?_, fun e he => by simp [startPlayback, he]⟩
  by_cases h0 : f.length = 0
  · simp [readWAVData, h0]
  · by_cases hm : magicOk (readBuf f 0 44)
    · by_cases hd2 : 0 < readLE32 (readBuf f 0 44) 40 ∧ f.length ≤ 44
      · simp [readWAVData, h0, hm, hd2]
      · simp [readWAVData, h0, hm, hd2]
    · simp [readWAVData, h0, hm]

/-- Witness for C6 (amended): the one-byte non-WAV file [0] fails to
decode, and playback start on it leaves the model unchanged. -/
theorem claim_C6_witness :
    startPlayback envAllOk [0] initModel = initModel :=
  (claim_C6 envAllOk [0] initModel).2 .invalidFormat (by decide)

/-- The model mid-recording: one open file (index 0) holding `bs`, the
audio device pointing at it. -/
def captureBase (sr ch bd : ℕ) (bs : List ℕ) : Model :=
  { initModelCfg sr ch bd with
      recording := true, state := .recording,
      files := [{ bytes := bs, isOpen := true }],
      audioDevice := some { recordingFile := some 0, playbackData := none,
                            playbackPos := 0 } }

theorem startRecording_ok (sr ch bd : ℕ) :
    startRecording envAllOk (initModelCfg sr ch bd)
      = captureBase sr ch bd (writeWAVHeader sr ch (bd * 8) 0) := rfl

theorem processAudioInput_base (sr ch bd : ℕ) (bs : List ℕ) (b : List ℤ) :
    processAudioInput b (captureBase sr ch bd bs)
      = captureBase sr ch bd (bs ++ samplesToBytes b) := rfl

theorem foldInput (blocks : List (List ℤ)) (sr ch bd : ℕ) (bs : List ℕ) :
    blocks.foldl (fun acc b => processAudioInput b acc) (captureBase sr ch bd bs)
      = captureBase sr ch bd (bs ++ (blocks.map samplesToBytes).flatten) := by
  induction blocks generalizing bs with
  | nil => simp
  | cons b rest ih =>
    simp only [List.foldl_cons, processAudioInput_base, List.map_cons,
      List.flatten_cons, ih, List.append_assoc]

theorem stopRecording_base (sr ch bd : ℕ) (bs : List ℕ) :
    stopRecording (captureBase sr ch bd bs)
      = { initModelCfg sr ch bd with
            files := [{ bytes := patchDataSize bs, isOpen := false }],
            memos := [{ duration := durationCalc ((bs.length : ℤ) - 44) (ch : ℤ)
                          (bd : ℤ) (sr : ℤ) 0,
                        size := bs.length }] } := rfl

theorem recordSession_eq (sr ch bd : ℕ) (blocks : List (List ℤ)) :
    recordSession blocks (initModelCfg sr ch bd)
      = { initModelCfg sr ch bd with
            files := [{ bytes := patchDataSize (writeWAVHeader sr ch (bd * 8) 0
                          ++ (blocks.map samplesToBytes).flatten),
                        isOpen := false }],
            memos := [{ duration := durationCalc
                          (((writeWAVHeader sr ch (bd * 8) 0
                            ++ (blocks.map samplesToBytes).flatten).length : ℤ)
                            - 44) (ch : ℤ) (bd : ℤ) (sr : ℤ) 0,
                        size := (writeWAVHeader sr ch (bd * 8) 0
                          ++ (blocks.map samplesToBytes).flatten).length }] } := by
  unfold recordSession
  rw [startRecording_ok, foldInput, stopRecording_base]

/-- Claim C1: after a completed recording session (start, any sequence of
delivered blocks, stop), the 4-byte little-endian field at offset 40 of the
written file equals the file's total size minus 44. -/
theorem claim_C1 (sr ch bd : ℕ) (blocks : List (List ℤ))
    (hsize : ((blocks.map samplesToBytes).flatten).length < 4294967296) :
    readLE32 (((recordSession blocks (initModelCfg sr ch bd)).files.getD 0
        { bytes := [], isOpen := false }).bytes) 40
      = ((recordSession blocks (initModelCfg sr ch bd)).files.getD 0
        { bytes := [], isOpen := false }).bytes.length - 44 := by
  rw [recordSession_eq]
  simp only [List.getD_cons_zero]
  have h44 : 44 ≤ (writeWAVHeader sr ch (bd * 8) 0
      ++ (blocks.map samplesToBytes).flatten).length := by
    rw [List.length_append, length_writeWAVHeader]
    omega
  have hsub : (writeWAVHeader sr ch (bd * 8) 0
      ++ (blocks.map samplesToBytes).flatten).length - 44 < 4294967296 := by
    rw [List.length_append, length_writeWAVHeader]
    omega
  rw [readLE32_patchDataSize _ h44 hsub, length_patchDataSize _ h44]

/-- Witness for C1: one session delivering a single block of one sample. -/
theorem claim_C1_witness :
    readLE32 (((recordSession [[7]] (initModelCfg 44100 1 2)).files.getD 0
        { bytes := [], isOpen := false }).bytes) 40
      = ((recordSession [[7]] (initModelCfg 44100 1 2)).files.getD 0
        { bytes := [], isOpen := false }).bytes.length - 44 :=
  claim_C1 44100 1 2 [[7]] (by decide)

/-- Claim C10: finalizing a recording rewrites only the 4 bytes at offset
40; every byte below offset 40 and every byte from offset 44 on keeps the
value written during the session, and in particular the RIFF chunk-size
field at offset 4 still reads the placeholder 36 (not 36 + dataChunkSize). -/
theorem claim_C10 (sr ch bd : ℕ) (blocks : List (List ℤ)) :
    (∀ i, i < 40 →
      ((recordSession blocks (initModelCfg sr ch bd)).files.getD 0
          { bytes := [], isOpen := false }).bytes.getD i 0
        = (writeWAVHeader sr ch (bd * 8) 0
            ++ (blocks.map samplesToBytes).flatten).getD i 0)
    ∧ (∀ i, 44 ≤ i →
      ((recordSession blocks (initModelCfg sr ch bd)).files.getD 0
          { bytes := [], isOpen := false }).bytes.getD i 0
        = (writeWAVHeader sr ch (bd * 8) 0
            ++ (blocks.map samplesToBytes).flatten).getD i 0)
    ∧ readLE32 (((recordSession blocks (initModelCfg sr ch bd)).files.getD 0
          { bytes := [], isOpen := false }).bytes) 4 = 36
    ∧ ((recordSession blocks (initModelCfg sr ch bd)).files.getD 0
          { bytes := [], isOpen := false }).bytes.length
        = (writeWAVHeader sr ch (bd * 8) 0
            ++ (blocks.map samplesToBytes).flatten).length := by
  rw [recordSession_eq]
  simp only [List.getD_cons_zero]
  have h44 : 44 ≤ (writeWAVHeader sr ch (bd * 8) 0
      ++ (blocks.map samplesToBytes).flatten).length := by
    rw [List.length_append, length_writeWAVHeader]
    omega
  refine ⟨fun i hi => getD_patchDataSize_lt _ h44 i hi,
          fun i hi => getD_patchDataSize_ge _ h44 i hi, ?_,
          length_patchDataSize _ h44⟩
  have h4 : ∀ j, j < 40 → (patchDataSize (writeWAVHeader sr ch (bd * 8) 0
      ++ (blocks.map samplesToBytes).flatten)).getD j 0
      = (writeWAVHeader sr ch (bd * 8) 0
          ++ (blocks.map samplesToBytes).flatten).getD j 0 :=
    fun j hj => getD_patchDataSize_lt _ h44 j hj
  unfold readLE32
  rw [h4 4 (by omega), h4 5 (by omega), h4 6 (by omega), h4 7 (by omega)]
  norm_num [writeWAVHeader, le16, le32]

/-- Witness for C10 at byte 0 and byte 44 of a one-block session. -/
theorem claim_C10_witness :
    ((recordSession [[7]] (initModelCfg 44100 1 2)).files.getD 0
        { bytes := [], isOpen := false }).bytes.getD 0 0
      = (writeWAVHeader 44100 1 16 0
          ++ ([[(7 : ℤ)]].map samplesToBytes).flatten).getD 0 0
    ∧ readLE32 (((recordSession [[7]] (initModelCfg 44100 1 2)).files.getD 0
        { bytes := [], isOpen := false }).bytes) 4 = 36 :=
  ⟨(claim_C10 44100 1 2 [[7]]).1 0 (by omega),
   (claim_C10 44100 1 2 [[7]]).2.2.1⟩

/-- The environment in which opening the input stream fails after the file
and header were written successfully. -/
def envOpenFail : Env := { envAllOk with openOk := false }

/-- The environment in which the header write fails after the file was
created successfully. -/
def envHeaderFail : Env := { envAllOk with headerOk := false }

/-- Claim C7 evaluated at its failing inputs, exhibiting the divergence
from the spec's failure policy: when the stream open fails, `stopRecording`
runs with the audio device already installed, so it finalizes the 44-byte
placeholder file and prepends a memo record built from the aborted attempt
(though the flag and state do return to idle); when the header write fails,
the audio device is not yet installed, so the created file's handle is
never closed and remains open. -/
theorem claim_C7_bug :
    (startRecording envOpenFail initModel).recording = false
    ∧ (startRecording envOpenFail initModel).state = .viewing
    ∧ (startRecording envOpenFail initModel).memos.length = 1
    ∧ ((startRecording envOpenFail initModel).files.getD 0
        { bytes := [], isOpen := false }).isOpen = false
    ∧ ((startRecording envHeaderFail initModel).files.getD 0
        { bytes := [], isOpen := false }).isOpen = true
    ∧ (startRecording envHeaderFail initModel).memos = []
    ∧ (startRecording envHeaderFail initModel).audioDevice = none := by
  decide

/-- Counterexample to C8 as stated: with channelCount = −1 and a byte
depth of −2 — both format fields non-positive — the guard
`bytesPerSample > 0 && sampleRate > 0` still passes (the product of the two
negatives is positive), so the code returns the formula value 5 instead of
falling back to the elapsed time 7. -/
theorem claim_C8_counterexample :
    durationCalc 441000 (-1) (-2) 44100 7 = 5 ∧ (5 : ℚ) ≠ 7 := by
  have h : Int.tdiv 441000 2 = 220500 := by decide
  constructor
  · norm_num [durationCalc, h]
  · norm_num

/-- Claim C8 (amended): the stored duration is the integer quotient
`dataChunkSize / (channelCount × bytesPerSample)` divided by the sample
rate, and the fallback to elapsed wall-clock time fires exactly when
`channelCount × bytesPerSample ≤ 0` or `sampleRateHz ≤ 0` (which is the
claim's "a format field is non-positive", except when channel count and
byte depth are both negative). -/
theorem claim_C8 (ds ch bd sr : ℤ) (el : ℚ) (hds : 0 ≤ ds) :
    (¬(0 < ch * bd ∧ 0 < sr) → durationCalc ds ch bd sr el = el)
    ∧ (0 < ch * bd → 0 < sr →
        durationCalc ds ch bd sr el = ((ds / (ch * bd) : ℤ) : ℚ) / (sr : ℚ)) := by
  constructor
  · intro h
    simp [durationCalc, h]
  · intro h1 h2
    rw [durationCalc, if_pos ⟨h1, h2⟩, Int.tdiv_eq_ediv hds (le_of_lt h1)]

/-- Witness for C8 (amended): the claim's concrete example — sample rate
44100, one channel, 2-byte samples, dataChunkSize 441000 — gives exactly
5 seconds (the elapsed time 9 is ignored). -/
theorem claim_C8_witness : durationCalc 441000 1 2 44100 9 = 5 := by
  have h := (claim_C8 441000 1 2 44100 9 (by norm_num)).2 (by norm_num)
    (by norm_num)
  rw [h]
  have h2 : (441000 : ℤ) / 2 = 220500 := by decide
  rw [show ((1 : ℤ) * 2) = 2 from rfl, h2]
  norm_num

end VoiceLog
